import Mathlib

/-!
Shallow embedding of the accessibility rule engine, compliance aggregator and
contrast calculator of the `Design_MCP` repository
(`accessibility-mcp-server/accessibility_rules.py`,
`accessibility-mcp-server/server.py`,
`accessibility-mcp-server/contrast_calculator.py`).

Python dictionaries for elements are modelled by the `Element` structure
(`tag` missing behaves as `""`, `attributes`/`text` missing behave as the
empty map / empty string, which is observationally identical to the source,
where every access goes through `dict.get` with those defaults).  Attribute
maps are association lists; `dict.get` is `List.lookup`.  Python string
truthiness (`None` and `""` falsy) is `pyTruthy`.  Numbers are exact
rationals / reals; Python `round(x, 1)` (round-half-even) is `pyRound1`.
Character-level helpers model Python semantics for ASCII input (the inputs
this program deals with); Python's `str(dict)` diagnostic snapshot is
modelled by storing the element itself.
-/

/-- Python `str.strip()` whitespace set (ASCII). -/
def pyIsSpace (c : Char) : Bool :=
  c == ' ' || c == '\t' || c == '\n' || c == '\r' || c == '\x0b' || c == '\x0c'

/-- Strip leading and trailing whitespace from a character list. -/
def pyStripChars (l : List Char) : List Char :=
  ((l.dropWhile pyIsSpace).reverse.dropWhile pyIsSpace).reverse

/-- Python `s.strip()` for ASCII strings. -/
def pyStrip (s : String) : String :=
  String.mk (pyStripChars s.data)

/-- Truthiness of an optional string in Python: `None` and `""` are falsy. -/
def pyTruthy (v : Option String) : Bool :=
  match v with
  | none => false
  | some s => !(s == "")

/-- Value of one hexadecimal digit character, `none` for a non-hex-digit. -/
def hexVal? (c : Char) : Option Int :=
  if 48 ≤ c.toNat ∧ c.toNat ≤ 57 then some ((c.toNat : Int) - 48)
  else if 97 ≤ c.toNat ∧ c.toNat ≤ 102 then some ((c.toNat : Int) - 87)
  else if 65 ≤ c.toNat ∧ c.toNat ≤ 70 then some ((c.toNat : Int) - 55)
  else none

/-- Digit part of Python `int(s, 16)`: hex digits with single underscores
between digits (state: accumulator, underscore-currently-allowed,
last-char-was-underscore, at-least-one-digit-seen). -/
def hexLoop : List Char → Int → Bool → Bool → Bool → Option Int
  | [], acc, _, lastUnd, hasDig => if hasDig && !lastUnd then some acc else none
  | c :: t, acc, allowUnd, _, hasDig =>
    match hexVal? c with
    | some v => hexLoop t (16 * acc + v) true false true
    | none => if c == '_' && allowUnd then hexLoop t acc false true hasDig else none

/-- Python `int(s, 16)` for ASCII strings: optional surrounding whitespace, an
optional sign, an optional `0x`/`0X` base marker (an underscore may follow
it), then a non-empty run of hex digits with single underscores between
digits.  `none` models a raised `ValueError`. -/
def pyIntHex (s : String) : Option Int :=
  let t := pyStripChars s.data
  let su : Int × List Char :=
    match t with
    | c :: r => if c == '+' then (1, r) else if c == '-' then (-1, r) else (1, t)
    | [] => (1, t)
  let bp : List Char × Bool :=
    match su.2 with
    | a :: b :: r => if a == '0' && (b == 'x' || b == 'X') then (r, true) else (su.2, false)
    | _ => (su.2, false)
  (hexLoop bp.1 0 bp.2 false false).map (fun v => su.1 * v)

/-- Python `int(c)` on the single character `c` (ASCII decimal digits);
`none` models a raised `ValueError`. -/
def pyIntDigit? (c : Char) : Option Nat :=
  if c.isDigit then some (c.toNat - 48) else none

/-- Round-half-even to an integer (the rounding Python `round` uses). -/
def roundHalfEven (x : ℚ) : ℤ :=
  let f := ⌊x⌋
  let r := x - f
  if r < 1 / 2 then f
  else if 1 / 2 < r then f + 1
  else if 2 ∣ f then f else f + 1

/-- Python `round(x, 1)`. -/
def pyRound1 (x : ℚ) : ℚ :=
  (roundHalfEven (x * 10) : ℚ) / 10

/-- Python `s.upper()` for ASCII strings. -/
def pyUpper (s : String) : String :=
  String.mk (s.data.map Char.toUpper)

/-- One markup node, as handed to the rule engine. -/
structure Element where
  tag : String
  attributes : List (String × String)
  text : String
deriving DecidableEq

/-- `element.get("attributes", {}).get(k)`. -/
def attrGet (e : Element) (k : String) : Option String :=
  e.attributes.lookup k

/-- Severity enumeration from `accessibility_rules.py`. -/
inductive Severity where
  | error
  | warning
  | info
deriving DecidableEq

/-- The `.value` string of a severity. -/
def severityValue : Severity → String
  | .error => "error"
  | .warning => "warning"
  | .info => "info"

/-- WCAG level enumeration from `accessibility_rules.py`. -/
inductive WCAGLevel where
  | A
  | AA
  | AAA
deriving DecidableEq

/-- The `AccessibilityIssue` dataclass. The `element` diagnostic snapshot
stores the element itself (the source stores `str(element)`). -/
structure AccessibilityIssue where
  rule_id : String
  severity : Severity
  wcag_level : WCAGLevel
  message : String
  element : Option Element := none
  suggestion : Option String := none
  wcag_criteria : Option String := none
deriving DecidableEq

/-- The issue built by `check_img_alt_text` for a missing `alt`. -/
def imgAltMissingIssue (e : Element) : AccessibilityIssue :=
  { rule_id := "img-alt-missing", severity := .error, wcag_level := .A,
    message := "Image missing alt attribute", element := some e,
    suggestion := some "Add an alt attribute to describe the image. Use alt=\x27\x27 for decorative images.",
    wcag_criteria := some "1.1.1" }

/-- The issue built by `check_img_alt_text` for a blank `alt`. -/
def imgAltEmptyIssue (e : Element) : AccessibilityIssue :=
  { rule_id := "img-alt-empty", severity := .warning, wcag_level := .A,
    message := "Image has empty alt text", element := some e,
    suggestion := some "If decorative, add role=\x27presentation\x27. Otherwise, provide descriptive alt text.",
    wcag_criteria := some "1.1.1" }

/-- `AccessibilityRules.check_img_alt_text`. -/
def check_img_alt_text (e : Element) : Option AccessibilityIssue :=
  if e.tag = "img" then
    match attrGet e "alt" with
    | none => some (imgAltMissingIssue e)
    | some alt =>
      if pyStrip alt = "" ∧ ¬(attrGet e "role" = some "presentation") then
        some (imgAltEmptyIssue e)
      else none
  else none

/-- The issue built by `check_form_labels`. -/
def formNoLabelIssue (e : Element) : AccessibilityIssue :=
  { rule_id := "form-no-label", severity := .error, wcag_level := .A,
    message := e.tag ++ " element missing label", element := some e,
    suggestion := some "Add a label element with for attribute, or use aria-label/aria-labelledby",
    wcag_criteria := some "3.3.2" }

/-- `AccessibilityRules.check_form_labels`.  Note that the source tests the
four labelling attributes with `any([...])`, i.e. Python truthiness: an
attribute present with value `""` is falsy there. -/
def check_form_labels (e : Element) : Option AccessibilityIssue :=
  if e.tag = "input" ∨ e.tag = "select" ∨ e.tag = "textarea" then
    let input_type := (attrGet e "type").getD "text"
    if input_type = "submit" ∨ input_type = "button" ∨ input_type = "reset" ∨ input_type = "hidden" then
      none
    else
      if pyTruthy (attrGet e "id") || pyTruthy (attrGet e "aria-label")
          || pyTruthy (attrGet e "aria-labelledby") || pyTruthy (attrGet e "title") then
        none
      else some (formNoLabelIssue e)
  else none

/-- The issue built by `check_link_text` for a link with no accessible text. -/
def linkNoTextIssue (e : Element) : AccessibilityIssue :=
  { rule_id := "link-no-text", severity := .error, wcag_level := .A,
    message := "Link has no accessible text", element := some e,
    suggestion := some "Add link text or aria-label attribute",
    wcag_criteria := some "2.4.4" }

/-- The issue built by `check_link_text` for generic link text. -/
def linkGenericTextIssue (e : Element) (text : String) : AccessibilityIssue :=
  { rule_id := "link-generic-text", severity := .warning, wcag_level := .A,
    message := "Link text \x27" ++ text ++ "\x27 is not descriptive", element := some e,
    suggestion := some "Use descriptive link text that explains the destination",
    wcag_criteria := some "2.4.4" }

/-- `AccessibilityRules.check_link_text` (ASCII `str.lower`). -/
def check_link_text (e : Element) : Option AccessibilityIssue :=
  if e.tag = "a" then
    let text := pyStrip e.text
    let aria_label := attrGet e "aria-label"
    if ¬pyTruthy (some text) ∧ ¬pyTruthy aria_label then
      some (linkNoTextIssue e)
    else
      let lower := text.map Char.toLower
      if (lower = "click here" ∨ lower = "read more" ∨ lower = "learn more"
            ∨ lower = "here" ∨ lower = "link" ∨ lower = "more") ∧ ¬pyTruthy aria_label then
        some (linkGenericTextIssue e text)
      else none
  else none

/-- The issue built by `check_language_attribute` (no element snapshot in the
source). -/
def htmlNoLangIssue : AccessibilityIssue :=
  { rule_id := "html-no-lang", severity := .error, wcag_level := .A,
    message := "HTML element missing lang attribute",
    suggestion := some "Add lang attribute to specify the page language (e.g., lang=\x27en\x27)",
    wcag_criteria := some "3.1.1" }

/-- `AccessibilityRules.check_language_attribute`.  The source tests
`if not lang:`, so a present-but-empty `lang` behaves like an absent one. -/
def check_language_attribute (e : Element) : Option AccessibilityIssue :=
  if e.tag = "html" then
    if pyTruthy (attrGet e "lang") then none else some htmlNoLangIssue
  else none

/-- The fixed allow-list of valid ARIA roles in `check_aria_roles`. -/
def validRoles : List String :=
  ["button", "link", "navigation", "main", "banner", "contentinfo",
   "complementary", "search", "form", "region", "alert", "status",
   "dialog", "alertdialog", "menu", "menubar", "menuitem", "tab",
   "tablist", "tabpanel", "toolbar", "tree", "treegrid", "treeitem",
   "grid", "gridcell", "row", "columnheader", "rowheader", "list",
   "listitem", "heading", "img", "presentation", "none"]

/-- The issue built by `check_aria_roles`. -/
def ariaInvalidRoleIssue (e : Element) (role : String) : AccessibilityIssue :=
  { rule_id := "aria-invalid-role", severity := .error, wcag_level := .A,
    message := "Invalid ARIA role \x27" ++ role ++ "\x27", element := some e,
    suggestion := some "Use a valid ARIA role from the WAI-ARIA specification",
    wcag_criteria := some "4.1.2" }

/-- `AccessibilityRules.check_aria_roles` (`if role:` is truthiness). -/
def check_aria_roles (e : Element) : Option AccessibilityIssue :=
  let role := attrGet e "role"
  if pyTruthy role then
    match role with
    | some r => if validRoles.contains r then none else some (ariaInvalidRoleIssue e r)
    | none => none
  else none

/-- The issue built by `check_keyboard_accessibility`. -/
def keyboardNoAccessIssue (e : Element) : AccessibilityIssue :=
  { rule_id := "keyboard-no-access", severity := .error, wcag_level := .A,
    message := "Clickable element not keyboard accessible", element := some e,
    suggestion := some "Add tabindex=\x270\x27 and keyboard event handlers, or use a button element",
    wcag_criteria := some "2.1.1" }

/-- `AccessibilityRules.check_keyboard_accessibility`. -/
def check_keyboard_accessibility (e : Element) : Option AccessibilityIssue :=
  let onclick := attrGet e "onclick"
  let role := attrGet e "role"
  let tabindex := attrGet e "tabindex"
  if pyTruthy onclick ∧ ¬(e.tag = "a" ∨ e.tag = "button" ∨ e.tag = "input"
      ∨ e.tag = "select" ∨ e.tag = "textarea") then
    if ¬(role = some "button" ∨ role = some "link") ∧ tabindex = none then
      some (keyboardNoAccessIssue e)
    else none
  else none

/-- The advisory built by `check_touch_target_size`. -/
def touchTargetIssue (e : Element) : AccessibilityIssue :=
  { rule_id := "touch-target-size", severity := .info, wcag_level := .AAA,
    message := "Verify touch target is at least 44x44 CSS pixels", element := some e,
    suggestion := some "Ensure interactive elements are large enough for touch interaction",
    wcag_criteria := some "2.5.5" }

/-- `AccessibilityRules.check_touch_target_size`. -/
def check_touch_target_size (e : Element) : Option AccessibilityIssue :=
  let role := attrGet e "role"
  if e.tag = "button" ∨ e.tag = "a" ∨ role = some "button" ∨ role = some "link" then
    some (touchTargetIssue e)
  else none

/-- The issue built by the skipped-level branch of `check_heading_hierarchy`. -/
def skipIssue (prev lv : Nat) (e : Element) : AccessibilityIssue :=
  { rule_id := "heading-skipped-level", severity := .error, wcag_level := .A,
    message := "Heading level skipped from h" ++ toString prev ++ " to h" ++ toString lv,
    element := some e,
    suggestion := some ("Use h" ++ toString (prev + 1) ++ " instead of h" ++ toString lv),
    wcag_criteria := some "1.3.1" }

/-- The issue built by the no-h1 branch of `check_heading_hierarchy`. -/
def noH1Issue : AccessibilityIssue :=
  { rule_id := "heading-no-h1", severity := .warning, wcag_level := .A,
    message := "Page should start with an h1 heading",
    suggestion := some "Add an h1 as the main page heading",
    wcag_criteria := some "1.3.1" }

/-- The `prev_level` loop of `check_heading_hierarchy`.  A tag that starts
with `h` and has length 2 enters `int(tag[1])`, which raises (`.error`) when
the second character is not a digit; any other tag is skipped without
touching `prev_level`. -/
def headingLoop : List Element → Nat → Except String (List AccessibilityIssue)
  | [], _ => .ok []
  | e :: t, prev =>
    match e.tag.data with
    | [c1, c2] =>
      if c1 = 'h' then
        match pyIntDigit? c2 with
        | none => .error "ValueError: invalid literal for int() with base 10"
        | some lv =>
          match headingLoop t lv with
          | .error m => .error m
          | .ok rest =>
            .ok ((if 0 < prev ∧ prev + 1 < lv then [skipIssue prev lv e] else []) ++ rest)
      else headingLoop t prev
    | _ => headingLoop t prev

/-- `AccessibilityRules.check_heading_hierarchy`.  An exception raised inside
the loop discards the already-collected issues, as in the source. -/
def check_heading_hierarchy (headings : List Element) : Except String (List AccessibilityIssue) :=
  match headings with
  | [] => .ok []
  | first :: _ =>
    match headingLoop headings 0 with
    | .error m => .error m
    | .ok skips => .ok ((if first.tag ≠ "h1" then [noH1Issue] else []) ++ skips)

/-- `extract_headings` from `server.py`. -/
def extract_headings (els : List Element) : List Element :=
  els.filter (fun e =>
    ["h1", "h2", "h3", "h4", "h5", "h6"].contains e.tag)

/-- The six per-element checks run by `check_html_accessibility`, in source
order.  `check_touch_target_size` is not among them. -/
def perElementIssues (e : Element) : List AccessibilityIssue :=
  (check_img_alt_text e).toList ++ (check_form_labels e).toList
    ++ (check_link_text e).toList ++ (check_language_attribute e).toList
    ++ (check_aria_roles e).toList ++ (check_keyboard_accessibility e).toList

/-- One entry of the per-severity lists in the result of
`check_html_accessibility`. -/
structure IssueDict where
  rule_id : String
  message : String
  wcag_level : WCAGLevel
  wcag_criteria : Option String
  suggestion : Option String
deriving DecidableEq

/-- Projection of an issue to the dictionary shape built at lines 101-107 of
`server.py`. -/
def toIssueDict (i : AccessibilityIssue) : IssueDict :=
  { rule_id := i.rule_id, message := i.message, wcag_level := i.wcag_level,
    wcag_criteria := i.wcag_criteria, suggestion := i.suggestion }

/-- The dictionary returned by `check_html_accessibility`. -/
structure CheckResult where
  total_issues : Nat
  errors : List IssueDict
  warnings : List IssueDict
  info : List IssueDict
  summary_errors : Nat
  summary_warnings : Nat
  summary_info : Nat
deriving DecidableEq

/-- `check_html_accessibility` from `server.py`, after the external HTML
parser has produced the element list.  A `ValueError` escaping the heading
check propagates as `.error`. -/
def check_html_accessibility (els : List Element) (include_warnings : Bool) :
    Except String CheckResult :=
  match check_heading_hierarchy (extract_headings els) with
  | .error m => .error m
  | .ok hIssues =>
    let issues := (els.map perElementIssues).flatten ++ hIssues
    let issues := if include_warnings then issues
      else issues.filter (fun i => i.severity = .error)
    let errs := (issues.filter (fun i => i.severity = .error)).map toIssueDict
    let warns := (issues.filter (fun i => i.severity = .warning)).map toIssueDict
    let infos := (issues.filter (fun i => i.severity = .info)).map toIssueDict
    .ok { total_issues := issues.length, errors := errs, warnings := warns,
          info := infos, summary_errors := errs.length,
          summary_warnings := warns.length, summary_info := infos.length }

/-- The `WCAGCriterion` dataclass of `wcag_data.py`. -/
structure WCAGCriterion where
  number : String
  id : String
  title : String
  level : String
  version : String
  description : String
  principle : String
  guideline : String
  exceptions : Option (List String) := none
deriving DecidableEq

/-- `wcag_data.get_criterion`: dictionary lookup keyed by number.  The dict
is built by inserting records in catalog order with later records
overwriting earlier ones, hence the lookup over the reversed list. -/
def getCriterion (cat : List WCAGCriterion) (number : String) : Option WCAGCriterion :=
  cat.reverse.find? (fun c => c.number == number)

/-- `wcag_data.get_criteria_by_level`: the per-level lists are filled in
catalog order. -/
def criteriaByLevel (cat : List WCAGCriterion) (level : String) : List WCAGCriterion :=
  cat.filter (fun c => c.level == level)

/-- The cumulative required-criteria list built at lines 491-498 of
`server.py` (the target level is already upper-cased and valid there). -/
def requiredCriteria (cat : List WCAGCriterion) (level : String) : List WCAGCriterion :=
  (if level = "A" ∨ level = "AA" ∨ level = "AAA" then criteriaByLevel cat "A" else [])
    ++ (if level = "AA" ∨ level = "AAA" then criteriaByLevel cat "AA" else [])
    ++ (if level = "AAA" then criteriaByLevel cat "AAA" else [])

/-- `dict.setdefault(k, []).extend(is)` on an insertion-ordered association
list. -/
def addIssues (m : List (String × List AccessibilityIssue)) (k : String)
    (new : List AccessibilityIssue) : List (String × List AccessibilityIssue) :=
  if m.any (fun p => p.1 == k) then
    m.map (fun p => if p.1 == k then (p.1, p.2 ++ new) else p)
  else m ++ [(k, new)]

/-- The per-element `(criterion, issue)` pairs collected by
`validate_wcag_compliance_level`, in source order. -/
def elemCriterionPairs (e : Element) : List (String × AccessibilityIssue) :=
  ((check_img_alt_text e).map (fun i => ("1.1.1", i))).toList
    ++ ((check_form_labels e).map (fun i => ("3.3.2", i))).toList
    ++ ((check_link_text e).map (fun i => ("2.4.4", i))).toList
    ++ ((check_language_attribute e).map (fun i => ("3.1.1", i))).toList
    ++ ((check_aria_roles e).map (fun i => ("4.1.2", i))).toList
    ++ ((check_keyboard_accessibility e).map (fun i => ("2.1.1", i))).toList

/-- The insertion-ordered `criterion_issues` mapping of
`validate_wcag_compliance_level`. -/
def buildCriterionIssues (els : List Element) (hIssues : List AccessibilityIssue) :
    List (String × List AccessibilityIssue) :=
  let m := els.foldl
    (fun m e => (elemCriterionPairs e).foldl (fun m p => addIssues m p.1 [p.2]) m) []
  if hIssues.isEmpty then m else addIssues m "1.3.1" hIssues

/-- One violation record of the compliance report. -/
structure Violation where
  criterion : String
  criterion_title : String
  criterion_level : String
  issue : String
  severity : String
  element : Option Element
  suggestion : Option (Option String)
deriving DecidableEq

/-- The violation record built at lines 550-560 of `server.py`
(`suggestion` is present only when `include_suggestions` is set). -/
def mkViolation (c : WCAGCriterion) (num : String) (include_suggestions : Bool)
    (i : AccessibilityIssue) : Violation :=
  { criterion := num, criterion_title := c.title, criterion_level := c.level,
    issue := i.message, severity := severityValue i.severity, element := i.element,
    suggestion := if include_suggestions then some i.suggestion else none }

/-- The `violations` list of `validate_wcag_compliance_level`: for each
criterion group (in insertion order) whose number resolves in the catalog and
appears in the required list, one record per issue. -/
def buildViolations (cat : List WCAGCriterion) (required : List WCAGCriterion)
    (m : List (String × List AccessibilityIssue)) (include_suggestions : Bool) :
    List Violation :=
  (m.map (fun p =>
    match getCriterion cat p.1 with
    | some c =>
      if required.any (fun r => r.number == p.1) then
        p.2.map (mkViolation c p.1 include_suggestions)
      else []
    | none => [])).flatten

/-- The dictionary returned by `validate_wcag_compliance_level`. -/
structure ComplianceReport where
  target_level : String
  compliance_status : String
  compliance_percentage : ℚ
  total_required_criteria : Nat
  violated_criteria : Nat
  total_violations : Nat
  violations : List Violation
  summary : String
deriving DecidableEq

/-- The compliance report built at lines 500-576 of `server.py`, given the
already validated upper-cased target level and the heading-check issues. -/
def complianceReportCore (cat : List WCAGCriterion) (els : List Element) (tl : String)
    (hIssues : List AccessibilityIssue) (include_suggestions : Bool) : ComplianceReport :=
  let required := requiredCriteria cat tl
  let m := buildCriterionIssues els hIssues
  let violations := buildViolations cat required m include_suggestions
  let total_required := required.length
  let violated := ((violations.map (fun v => v.criterion)).dedup).length
  let pct : ℚ :=
    if 0 < total_required then
      (((total_required : ℚ) - (violated : ℚ)) / (total_required : ℚ)) * 100
    else 100
  { target_level := tl,
    compliance_status := if violations.isEmpty then "PASS" else "FAIL",
    compliance_percentage := pyRound1 pct,
    total_required_criteria := total_required,
    violated_criteria := violated,
    total_violations := violations.length,
    violations := violations,
    summary := (if violations.isEmpty then "✅ Passes" else "❌ Fails")
      ++ " WCAG " ++ tl ++ " with " ++ toString violated ++ " criteria violations" }

/-- `validate_wcag_compliance_level` from `server.py`, after the external
HTML parser; the catalog is the externally loaded criteria collection.
`.error` covers both the invalid-target-level early return and a propagated
`ValueError` from the heading check. -/
def validate_wcag_compliance_level (cat : List WCAGCriterion) (els : List Element)
    (target_level : String) (include_suggestions : Bool) :
    Except String ComplianceReport :=
  if ¬(pyUpper target_level = "A" ∨ pyUpper target_level = "AA" ∨ pyUpper target_level = "AAA") then
    .error "Target level must be A, AA, or AAA"
  else
    match check_heading_hierarchy (extract_headings els) with
    | .error m => .error m
    | .ok hIssues =>
      .ok (complianceReportCore cat els (pyUpper target_level) hIssues include_suggestions)

/-- `hex_to_rgb` from `contrast_calculator.py`: strip leading `#` characters,
then parse the three character pairs at offsets 0, 2, 4 (Python slicing
clamps, so over-long input is silently truncated and short input yields short
or empty slices).  `none` models a raised `ValueError`. -/
def hex_to_rgb (s : String) : Option (Int × Int × Int) :=
  let t := s.data.dropWhile (fun c => c == '#')
  match pyIntHex (String.mk (t.take 2)), pyIntHex (String.mk ((t.drop 2).take 2)),
      pyIntHex (String.mk ((t.drop 4).take 2)) with
  | some r, some g, some b => some (r, g, b)
  | _, _, _ => none

/-- The `linearize` helper of `rgb_to_relative_luminance` (exact reals in
place of floats). -/
noncomputable def linearize (c : Int) : ℝ :=
  let x : ℝ := (c : ℝ) / 255
  if x ≤ 0.03928 then x / 12.92 else ((x + 0.055) / 1.055) ^ (2.4 : ℝ)

/-- `rgb_to_relative_luminance`. -/
noncomputable def rgb_to_relative_luminance (r g b : Int) : ℝ :=
  0.2126 * linearize r + 0.7152 * linearize g + 0.0722 * linearize b

/-- `calculate_contrast_ratio`; `none` models a propagated `ValueError` from
`hex_to_rgb`. -/
noncomputable def calculate_contrast_ratio (color1 color2 : String) : Option ℝ :=
  match hex_to_rgb color1, hex_to_rgb color2 with
  | some (r1, g1, b1), some (r2, g2, b2) =>
    let lum1 := rgb_to_relative_luminance r1 g1 b1
    let lum2 := rgb_to_relative_luminance r2 g2 b2
    let lighter := max lum1 lum2
    let darker := min lum1 lum2
    some ((lighter + 0.05) / (darker + 0.05))
  | _, _ => none

/-- Round-half-even to an integer, on the reals. -/
noncomputable def roundHalfEvenR (x : ℝ) : ℤ :=
  let f := ⌊x⌋
  let r := x - f
  if r < 1 / 2 then f
  else if 1 / 2 < r then f + 1
  else if 2 ∣ f then f else f + 1

/-- Python `round(x, 2)` on the reals. -/
noncomputable def pyRound2R (x : ℝ) : ℝ :=
  (roundHalfEvenR (x * 100) : ℝ) / 100

/-- The dictionary returned by `evaluate_contrast`. -/
structure ContrastResult where
  foreground : String
  background : String
  contrast_ratio : ℝ
  font_size : ℚ
  is_bold : Bool
  is_large_text : Bool
  wcag_aa_required : ℝ
  wcag_aa_passes : Prop
  wcag_aa_status : String
  wcag_aaa_required : ℝ
  wcag_aaa_passes : Prop
  wcag_aaa_status : String
  overall_grade : String

open Classical in
/-- `evaluate_contrast` from `contrast_calculator.py`; `none` models a
propagated `ValueError` on malformed hex input. -/
noncomputable def evaluate_contrast (foreground background : String)
    (font_size : ℚ) (is_bold : Bool) : Option ContrastResult :=
  (calculate_contrast_ratio foreground background).map (fun ratio =>
    let is_large_text := decide (18 ≤ font_size) || (decide (14 ≤ font_size) && is_bold)
    let aa_threshold : ℝ := if is_large_text then 3.0 else 4.5
    let aaa_threshold : ℝ := if is_large_text then 4.5 else 7.0
    { foreground := foreground, background := background,
      contrast_ratio := pyRound2R ratio, font_size := font_size, is_bold := is_bold,
      is_large_text := is_large_text,
      wcag_aa_required := aa_threshold,
      wcag_aa_passes := aa_threshold ≤ ratio,
      wcag_aa_status := if aa_threshold ≤ ratio then "✅ PASS" else "❌ FAIL",
      wcag_aaa_required := aaa_threshold,
      wcag_aaa_passes := aaa_threshold ≤ ratio,
      wcag_aaa_status := if aaa_threshold ≤ ratio then "✅ PASS" else "❌ FAIL",
      overall_grade := if aaa_threshold ≤ ratio then "AAA"
        else if aa_threshold ≤ ratio then "AA" else "FAIL" })

/-- A character is a hexadecimal digit. -/
def isHexDig (c : Char) : Bool :=
  (hexVal? c).isSome

/-- The input of `hex_to_rgb` after `lstrip` of the `#` characters. -/
def stripHash (s : String) : List Char :=
  s.data.dropWhile (fun c => c == '#')

/-- Wording of the spec: a valid 6-hex-digit color string (an optional run of
leading `#` characters followed by exactly six hex digits). -/
def isValid6 (s : String) : Bool :=
  (stripHash s).length == 6 && (stripHash s).all isHexDig

/-- Wording of the spec: the numeric level of a well-formed `h<digit>` tag. -/
def wfLevel? (e : Element) : Option Nat :=
  match e.tag.data with
  | [c1, c2] => if c1 = 'h' then pyIntDigit? c2 else none
  | _ => none

/-- Wording of the spec: the numeric levels of the well-formed headings of a
sequence, in order. -/
def wfLevels (hs : List Element) : List Nat :=
  hs.filterMap wfLevel?

/-- Wording of the spec: the jumps of a level sequence — the pairs
`(previous_level, L)` with `previous_level > 0` and `L > previous_level + 1`,
tracking `previous_level` from the given start through the sequence. -/
def specJumps : Nat → List Nat → List (Nat × Nat)
  | _, [] => []
  | prev, l :: t => (if 0 < prev ∧ prev + 1 < l then [(prev, l)] else []) ++ specJumps l t

/-- Wording of the spec: each level exceeds the previous one by at most 1
(no constraint while `previous_level` is still 0). -/
def gentleFrom : Nat → List Nat → Bool
  | _, [] => true
  | prev, l :: t => (prev == 0 || decide (l ≤ prev + 1)) && gentleFrom l t

/-- Wording of the spec: the fields (rule, severity, level, message,
suggestion, criterion) a skipped-level issue for the jump `prev → lv` must
carry. -/
def skipCore (prev lv : Nat) :
    String × Severity × WCAGLevel × String × Option String × Option String :=
  ("heading-skipped-level", Severity.error, WCAGLevel.A,
   "Heading level skipped from h" ++ toString prev ++ " to h" ++ toString lv,
   some ("Use h" ++ toString (prev + 1) ++ " instead of h" ++ toString lv),
   some "1.3.1")

/-- Projection of an issue to all fields except the element snapshot. -/
def issueCore (i : AccessibilityIssue) :
    String × Severity × WCAGLevel × String × Option String × Option String :=
  (i.rule_id, i.severity, i.wcag_level, i.message, i.suggestion, i.wcag_criteria)

/-- A tag that does not make `check_heading_hierarchy` raise: if it has the
shape `h` followed by exactly one character, that character is a digit. -/
def wellFormedTag (e : Element) : Bool :=
  match e.tag.data with
  | [c1, c2] => if c1 = 'h' then c2.isDigit else true
  | _ => true

/-! ## Theorems -/

/-- C5: for an `img` element, a missing `alt` yields exactly the
`img-alt-missing` error; a present-but-blank `alt` with `role` different
from `presentation` yields exactly the `img-alt-empty` warning; a blank
`alt` with `role="presentation"` yields no issue. -/
theorem c5_img_alt_rules (e : Element) (htag : e.tag = "img") :
    (attrGet e "alt" = none →
      (check_img_alt_text e).map (fun i => (i.rule_id, i.severity))
        = some ("img-alt-missing", Severity.error))
    ∧ (∀ a, attrGet e "alt" = some a → pyStrip a = "" →
        attrGet e "role" ≠ some "presentation" →
      (check_img_alt_text e).map (fun i => (i.rule_id, i.severity))
        = some ("img-alt-empty", Severity.warning))
    ∧ (∀ a, attrGet e "alt" = some a → pyStrip a = "" →
        attrGet e "role" = some "presentation" →
      check_img_alt_text e = none) := by
  refine ⟨?_, ?_, ?_⟩
  · intro ha
    simp [check_img_alt_text, htag, ha, imgAltMissingIssue]
  · intro a ha hs hr
    simp [check_img_alt_text, htag, ha, hs, hr, imgAltEmptyIssue]
  · intro a ha hs hr
    simp [check_img_alt_text, htag, ha, hs, hr]

/-- C5 witness: the three branches at concrete `img` elements. -/
theorem c5_img_alt_rules_witness :
    (check_img_alt_text ⟨"img", [], ""⟩).map (fun i => (i.rule_id, i.severity))
      = some ("img-alt-missing", Severity.error)
    ∧ (check_img_alt_text ⟨"img", [("alt", " ")], ""⟩).map (fun i => (i.rule_id, i.severity))
      = some ("img-alt-empty", Severity.warning)
    ∧ check_img_alt_text ⟨"img", [("alt", ""), ("role", "presentation")], ""⟩ = none :=
  ⟨(c5_img_alt_rules ⟨"img", [], ""⟩ rfl).1 rfl,
   (c5_img_alt_rules ⟨"img", [("alt", " ")], ""⟩ rfl).2.1 " " rfl rfl (by decide),
   (c5_img_alt_rules ⟨"img", [("alt", ""), ("role", "presentation")], ""⟩ rfl).2.2 "" rfl rfl rfl⟩

/-- C10: for an `html` element, `check_language_attribute` returns exactly
one `html-no-lang` error precisely when the `lang` attribute is absent or
equal to the empty string, and no issue otherwise — a present-but-empty
`lang` is treated the same as an absent one. -/
theorem c10_lang_empty_as_absent (e : Element) (htag : e.tag = "html") :
    (check_language_attribute e = some htmlNoLangIssue
      ↔ (attrGet e "lang" = none ∨ attrGet e "lang" = some ""))
    ∧ (∀ v, attrGet e "lang" = some v → v ≠ "" → check_language_attribute e = none)
    ∧ htmlNoLangIssue.rule_id = "html-no-lang"
    ∧ htmlNoLangIssue.severity = Severity.error := by
  refine ⟨?_, ?_, rfl, rfl⟩
  · cases hl : attrGet e "lang" with
    | none => simp [check_language_attribute, htag, hl, pyTruthy]
    | some v =>
      by_cases hv : v = "" <;>
        simp [check_language_attribute, htag, hl, pyTruthy, hv]
  · intro v hv hne
    simp [check_language_attribute, htag, hv, pyTruthy, hne]

/-- C10 witness: absent, empty and non-empty `lang` at concrete elements. -/
theorem c10_lang_empty_as_absent_witness :
    check_language_attribute ⟨"html", [("lang", "")], ""⟩ = some htmlNoLangIssue
    ∧ check_language_attribute ⟨"html", [("lang", "en")], ""⟩ = none :=
  ⟨((c10_lang_empty_as_absent ⟨"html", [("lang", "")], ""⟩ rfl).1).mpr (Or.inr rfl),
   (c10_lang_empty_as_absent ⟨"html", [("lang", "en")], ""⟩ rfl).2.1 "en" rfl (by decide)⟩

/-- C6 counterexample: an `input` element whose `id` attribute is present
with the empty-string value.  The claim says a present attribute counts as
present, so no issue should be returned; the source tests the attributes
with Python truthiness (`any([...])`), so the empty string counts as absent
and the `form-no-label` error is returned. -/
theorem c6_counterexample :
    attrGet ⟨"input", [("id", "")], ""⟩ "id" = some ""
    ∧ (check_form_labels ⟨"input", [("id", "")], ""⟩).map (fun i => (i.rule_id, i.severity))
      = some ("form-no-label", Severity.error) :=
  ⟨rfl, rfl⟩

/-- C6 (amended): for a form control whose effective type needs a label,
`check_form_labels` returns the `form-no-label` error precisely when none of
`id`, `aria-label`, `aria-labelledby`, `title` is present with a non-empty
value — an attribute present with the empty-string value counts as absent,
not as present. -/
theorem c6_form_label_truthiness (e : Element)
    (htag : e.tag = "input" ∨ e.tag = "select" ∨ e.tag = "textarea")
    (hty : ¬((attrGet e "type").getD "text" = "submit"
      ∨ (attrGet e "type").getD "text" = "button"
      ∨ (attrGet e "type").getD "text" = "reset"
      ∨ (attrGet e "type").getD "text" = "hidden")) :
    (check_form_labels e = some (formNoLabelIssue e)
      ↔ (pyTruthy (attrGet e "id") || pyTruthy (attrGet e "aria-label")
          || pyTruthy (attrGet e "aria-labelledby") || pyTruthy (attrGet e "title")) = false)
    ∧ ((pyTruthy (attrGet e "id") || pyTruthy (attrGet e "aria-label")
          || pyTruthy (attrGet e "aria-labelledby") || pyTruthy (attrGet e "title")) = true
        → check_form_labels e = none)
    ∧ (formNoLabelIssue e).rule_id = "form-no-label"
    ∧ (formNoLabelIssue e).severity = Severity.error := by
  refine ⟨?_, ?_, rfl, rfl⟩
  · cases hb : (pyTruthy (attrGet e "id") || pyTruthy (attrGet e "aria-label")
        || pyTruthy (attrGet e "aria-labelledby") || pyTruthy (attrGet e "title")) <;>
      simp [check_form_labels, htag, hty, hb]
  · intro hb
    simp [check_form_labels, htag, hty, hb]

/-- C6 witness: a bare `input` gets the error, an `aria-label`led one does
not. -/
theorem c6_form_label_truthiness_witness :
    check_form_labels ⟨"input", [], ""⟩ = some (formNoLabelIssue ⟨"input", [], ""⟩)
    ∧ check_form_labels ⟨"input", [("aria-label", "Name")], ""⟩ = none :=
  ⟨((c6_form_label_truthiness ⟨"input", [], ""⟩ (Or.inl rfl) (by decide)).1).mpr rfl,
   (c6_form_label_truthiness ⟨"input", [("aria-label", "Name")], ""⟩ (Or.inl rfl)
     (by decide)).2.1 rfl⟩

/-- C3: the heading checker is not total on malformed tags.  A heading list
containing the tag `hx` — which starts with `h` and has length 2 but no
digit suffix — makes `check_heading_hierarchy` raise a `ValueError` from
`int(tag[1])` instead of returning normally with zero issues. -/
theorem c3_heading_checker_raises :
    check_heading_hierarchy [⟨"hx", [], ""⟩]
      = Except.error "ValueError: invalid literal for int() with base 10"
    ∧ "hx".data = ['h', 'x'] ∧ Char.isDigit 'x' = false :=
  ⟨rfl, rfl, by decide⟩

/-- Swapping the two colors does not change `calculate_contrast_ratio`: the
ratio is built from the max and the min of the two luminances. -/
theorem contrast_ratio_comm (a b : String) :
    calculate_contrast_ratio a b = calculate_contrast_ratio b a := by
  unfold calculate_contrast_ratio
  cases ha : hex_to_rgb a with
  | none => cases hb : hex_to_rgb b <;> simp
  | some p =>
    cases hb : hex_to_rgb b with
    | none => simp
    | some q =>
      obtain ⟨r1, g1, b1⟩ := p
      obtain ⟨r2, g2, b2⟩ := q
      simp only [Option.some.injEq]
      rw [max_comm, min_comm]

/-- C7: for every pair of valid 6-hex-digit color strings, the contrast
ratio is symmetric in its two arguments, the ratio being
`(L_lighter + 0.05) / (L_darker + 0.05)` with the max/min of the two
relative luminances. -/
theorem c7_contrast_symmetric (a b : String)
    (_ha : isValid6 a = true) (_hb : isValid6 b = true) :
    calculate_contrast_ratio a b = calculate_contrast_ratio b a :=
  contrast_ratio_comm a b

/-- C7 witness: symmetry at black and white. -/
theorem c7_contrast_symmetric_witness :
    isValid6 "000000" = true ∧ isValid6 "FFFFFF" = true
    ∧ calculate_contrast_ratio "000000" "FFFFFF"
      = calculate_contrast_ratio "FFFFFF" "000000" :=
  ⟨rfl, rfl, c7_contrast_symmetric "000000" "FFFFFF" rfl rfl⟩

/-- A hex digit is not any specific non-hex-digit character. -/
theorem hexVal_ne_char (c : Char) (v : Int) (h : hexVal? c = some v)
    (d : Char) (hd : hexVal? d = none) : (c == d) = false := by
  rw [beq_eq_false_iff_ne]
  rintro rfl
  rw [hd] at h
  exact Option.noConfusion h

/-- A hex digit is not whitespace. -/
theorem hexVal_not_space (c : Char) (v : Int) (h : hexVal? c = some v) :
    pyIsSpace c = false := by
  simp only [pyIsSpace]
  rw [hexVal_ne_char c v h ' ' rfl, hexVal_ne_char c v h '\t' rfl,
    hexVal_ne_char c v h '\n' rfl, hexVal_ne_char c v h '\r' rfl,
    hexVal_ne_char c v h '\x0b' rfl, hexVal_ne_char c v h '\x0c' rfl]
  rfl

/-- `int(s, 16)` on a two-hex-digit string. -/
theorem pyIntHex_pair (c1 c2 : Char) (v1 v2 : Int)
    (h1 : hexVal? c1 = some v1) (h2 : hexVal? c2 = some v2) :
    pyIntHex (String.mk [c1, c2]) = some (16 * v1 + v2) := by
  have hs1 := hexVal_not_space c1 v1 h1
  have hs2 := hexVal_not_space c2 v2 h2
  have hp1 := hexVal_ne_char c1 v1 h1 '+' rfl
  have hm1 := hexVal_ne_char c1 v1 h1 '-' rfl
  have hx2 := hexVal_ne_char c2 v2 h2 'x' rfl
  have hX2 := hexVal_ne_char c2 v2 h2 'X' rfl
  have hstrip : pyStripChars [c1, c2] = [c1, c2] := by
    simp [pyStripChars, List.dropWhile, hs1, hs2]
  simp only [pyIntHex, hstrip]
  simp [hp1, hm1, hx2, hX2, hexLoop, h1, h2]

/-- A list of length at least six starts with six explicit elements. -/
theorem sixOfLength : ∀ (l : List Char), 6 ≤ l.length →
    ∃ a b c d e f r, l = a :: b :: c :: d :: e :: f :: r
  | a :: b :: c :: d :: e :: f :: r, _ => ⟨a, b, c, d, e, f, r, rfl⟩
  | [], h | [_], h | [_, _], h | [_, _, _], h | [_, _, _, _], h | [_, _, _, _, _], h =>
    absurd h (by simp)

/-- When the `#`-stripped input has at least six characters whose first six
are hex digits, `hex_to_rgb` succeeds and its value only depends on those
first six characters. -/
theorem hexToRgb_take6 (s : String) (h6 : 6 ≤ (stripHash s).length)
    (hhex : ∀ c ∈ (stripHash s).take 6, isHexDig c = true) :
    (∃ p, hex_to_rgb s = some p)
    ∧ hex_to_rgb s = hex_to_rgb (String.mk ((stripHash s).take 6)) := by
  obtain ⟨a, b, c, d, e, f, r, hl⟩ := sixOfLength _ h6
  have htake : (stripHash s).take 6 = [a, b, c, d, e, f] := by rw [hl]; rfl
  rw [htake] at hhex
  have ha := hhex a (by simp)
  have hb := hhex b (by simp)
  have hc := hhex c (by simp)
  have hd := hhex d (by simp)
  have he := hhex e (by simp)
  have hf := hhex f (by simp)
  rw [isHexDig, Option.isSome_iff_exists] at ha hb hc hd he hf
  obtain ⟨va, hva⟩ := ha
  obtain ⟨vb, hvb⟩ := hb
  obtain ⟨vc, hvc⟩ := hc
  obtain ⟨vd, hvd⟩ := hd
  obtain ⟨ve, hve⟩ := he
  obtain ⟨vf, hvf⟩ := hf
  have h12 := pyIntHex_pair a b va vb hva hvb
  have h34 := pyIntHex_pair c d vc vd hvc hvd
  have h56 := pyIntHex_pair e f ve vf hve hvf
  have hsdata : s.data.dropWhile (fun x => x == '#') = a :: b :: c :: d :: e :: f :: r := hl
  have hs_eq : hex_to_rgb s = some (16 * va + vb, 16 * vc + vd, 16 * ve + vf) := by
    simp only [hex_to_rgb, hsdata]
    rw [show ((a :: b :: c :: d :: e :: f :: r).take 2) = [a, b] from rfl,
      show (((a :: b :: c :: d :: e :: f :: r).drop 2).take 2) = [c, d] from rfl,
      show (((a :: b :: c :: d :: e :: f :: r).drop 4).take 2) = [e, f] from rfl,
      h12, h34, h56]
  have hna := hexVal_ne_char a va hva '#' rfl
  have hdrop : [a, b, c, d, e, f].dropWhile (fun x => x == '#') = [a, b, c, d, e, f] := by
    simp [List.dropWhile, hna]
  have hrhs : hex_to_rgb (String.mk [a, b, c, d, e, f])
      = some (16 * va + vb, 16 * vc + vd, 16 * ve + vf) := by
    simp only [hex_to_rgb]
    rw [hdrop]
    rw [show ([a, b, c, d, e, f].take 2) = [a, b] from rfl,
      show (([a, b, c, d, e, f].drop 2).take 2) = [c, d] from rfl,
      show (([a, b, c, d, e, f].drop 4).take 2) = [e, f] from rfl,
      h12, h34, h56]
  exact ⟨⟨_, hs_eq⟩, by rw [hs_eq, htake, hrhs]⟩

/-- A valid 6-hex-digit color string parses. -/
theorem hexToRgb_of_valid (s : String) (h : isValid6 s = true) :
    ∃ p, hex_to_rgb s = some p := by
  rw [isValid6, Bool.and_eq_true, beq_iff_eq, List.all_eq_true] at h
  refine (hexToRgb_take6 s (by omega) ?_).1
  intro c hcm
  exact h.2 c (List.mem_of_mem_take hcm)

/-- `hex_to_rgb` fails when the `#`-stripped input has fewer than five
characters (the third slice is then empty and `int("", 16)` raises). -/
theorem hexToRgb_short (s : String) (h : (stripHash s).length < 5) :
    hex_to_rgb s = none := by
  have h4 : (stripHash s).drop 4 = [] := List.drop_eq_nil_of_le (by omega)
  have h3 : pyIntHex (String.mk (((stripHash s).drop 4).take 2)) = none := by
    rw [h4]; rfl
  have hsh : s.data.dropWhile (fun x => x == '#') = stripHash s := rfl
  simp only [hex_to_rgb, hsh]
  rw [h3]
  cases pyIntHex (String.mk ((stripHash s).take 2)) <;>
    cases pyIntHex (String.mk (((stripHash s).drop 2).take 2)) <;> rfl

/-- `evaluate_contrast` fails exactly when one of the two colors fails to
parse. -/
theorem evaluate_contrast_none_iff (a b : String) (fs : ℚ) (bold : Bool) :
    evaluate_contrast a b fs bold = none
      ↔ (hex_to_rgb a = none ∨ hex_to_rgb b = none) := by
  unfold evaluate_contrast calculate_contrast_ratio
  cases ha : hex_to_rgb a with
  | none =>
    cases hb : hex_to_rgb b with
    | none => simp
    | some q => obtain ⟨q1, q2, q3⟩ := q; simp
  | some p =>
    obtain ⟨p1, p2, p3⟩ := p
    cases hb : hex_to_rgb b with
    | none => simp
    | some q => obtain ⟨q1, q2, q3⟩ := q; simp

/-- C8 counterexample: `"fffffff"` has seven hex digits — the wrong length,
hence malformed for the claim — yet `evaluate_contrast` succeeds on it
instead of failing with a parsing error. -/
theorem c8_counterexample :
    isValid6 "fffffff" = false
    ∧ evaluate_contrast "fffffff" "000000" 16 false ≠ none := by
  refine ⟨rfl, ?_⟩
  rw [Ne, evaluate_contrast_none_iff]
  rintro (h | h)
  · rw [show hex_to_rgb "fffffff" = some (255, 255, 255) from rfl] at h
    exact Option.noConfusion h
  · rw [show hex_to_rgb "000000" = some (0, 0, 0) from rfl] at h
    exact Option.noConfusion h

/-- C8 (amended): `evaluate_contrast` succeeds on every pair of well-formed
6-hex-digit color strings, and fails with a parsing error whenever either
argument's `#`-stripped form has fewer than five characters; it does not
fail on every malformed input — over-long hex input is truncated rather
than rejected (see the counterexample). -/
theorem c8_hex_error_handling (s t : String) (fs : ℚ) (bold : Bool) :
    (isValid6 s = true → isValid6 t = true → evaluate_contrast s t fs bold ≠ none)
    ∧ ((stripHash s).length < 5 ∨ (stripHash t).length < 5 →
        evaluate_contrast s t fs bold = none) := by
  constructor
  · intro hs ht
    rw [Ne, evaluate_contrast_none_iff]
    obtain ⟨p, hp⟩ := hexToRgb_of_valid s hs
    obtain ⟨q, hq⟩ := hexToRgb_of_valid t ht
    rintro (h | h)
    · rw [hp] at h; exact Option.noConfusion h
    · rw [hq] at h; exact Option.noConfusion h
  · intro h
    rw [evaluate_contrast_none_iff]
    rcases h with h | h
    · exact Or.inl (hexToRgb_short s h)
    · exact Or.inr (hexToRgb_short t h)

/-- C8 witness: a well-formed pair succeeds, a 3-digit foreground fails. -/
theorem c8_hex_error_handling_witness :
    isValid6 "ffffff" = true
    ∧ evaluate_contrast "ffffff" "000000" 16 false ≠ none
    ∧ (stripHash "#fff").length < 5
    ∧ evaluate_contrast "#fff" "000000" 16 false = none :=
  ⟨rfl, (c8_hex_error_handling "ffffff" "000000" 16 false).1 rfl rfl,
   by decide, (c8_hex_error_handling "#fff" "000000" 16 false).2 (Or.inl (by decide))⟩

/-- C9: when the input string, after stripping leading `#` characters, has
at least six characters whose first six are hex digits, `hex_to_rgb`
succeeds (and hence `evaluate_contrast` succeeds) and its result depends
only on those first six characters — longer-than-6-digit input is silently
truncated, not rejected. -/
theorem c9_hex_truncation (s : String) (h6 : 6 ≤ (stripHash s).length)
    (hhex : ((stripHash s).take 6).all isHexDig = true) :
    hex_to_rgb s ≠ none
    ∧ hex_to_rgb s = hex_to_rgb (String.mk ((stripHash s).take 6))
    ∧ (∀ fs bold, evaluate_contrast s s fs bold ≠ none) := by
  rw [List.all_eq_true] at hhex
  obtain ⟨⟨p, hp⟩, heq⟩ := hexToRgb_take6 s h6 hhex
  refine ⟨by rw [hp]; exact fun h => Option.noConfusion h, heq, ?_⟩
  intro fs bold
  rw [Ne, evaluate_contrast_none_iff]
  rintro (h | h) <;> (rw [hp] at h; exact Option.noConfusion h)

/-- C9 witness: an 8-hex-digit input parses and equals its 6-digit
truncation. -/
theorem c9_hex_truncation_witness :
    6 ≤ (stripHash "#AABBCC11").length
    ∧ ((stripHash "#AABBCC11").take 6).all isHexDig = true
    ∧ hex_to_rgb "#AABBCC11" ≠ none
    ∧ hex_to_rgb "#AABBCC11" = hex_to_rgb (String.mk ((stripHash "#AABBCC11").take 6)) := by
  have h := c9_hex_truncation "#AABBCC11" (by decide) (by decide)
  exact ⟨by decide, by decide, h.1, h.2.1⟩

/-- Gentle level sequences (never increasing by more than 1) have no jumps. -/
theorem gentle_no_jumps : ∀ (ls : List Nat) (prev : Nat),
    gentleFrom prev ls = true → specJumps prev ls = [] := by
  intro ls
  induction ls with
  | nil => intro prev _; rfl
  | cons l t ih =>
    intro prev h
    rw [gentleFrom, Bool.and_eq_true] at h
    obtain ⟨h1, h2⟩ := h
    have hnj : ¬(0 < prev ∧ prev + 1 < l) := by
      rw [Bool.or_eq_true, beq_iff_eq, decide_eq_true_eq] at h1
      rcases h1 with h1 | h1 <;> omega
    rw [specJumps, if_neg hnj, ih l h2]
    rfl

/-- One step of `headingLoop` on a non-raising element: a malformed tag is
skipped without touching `prev_level`, a well-formed `h<digit>` tag updates
it and may contribute one skip issue. -/
theorem headingLoop_step (e : Element) (t : List Element) (prev : Nat)
    (hwfe : wellFormedTag e = true) :
    (wfLevel? e = none → headingLoop (e :: t) prev = headingLoop t prev)
    ∧ ∀ lv, wfLevel? e = some lv →
        headingLoop (e :: t) prev =
          (match headingLoop t lv with
           | .error m => .error m
           | .ok rest =>
             .ok ((if 0 < prev ∧ prev + 1 < lv then [skipIssue prev lv e] else []) ++ rest)) := by
  rcases hd : e.tag.data with _ | ⟨c1, _ | ⟨c2, _ | ⟨c3, tl3⟩⟩⟩
  · exact ⟨fun _ => by simp only [headingLoop, hd],
      fun lv hlv => by
        simp only [wfLevel?, hd] at hlv
        exact Option.noConfusion hlv⟩
  · exact ⟨fun _ => by simp only [headingLoop, hd],
      fun lv hlv => by
        simp only [wfLevel?, hd] at hlv
        exact Option.noConfusion hlv⟩
  · by_cases hc1 : c1 = 'h'
    · subst hc1
      have hdig : c2.isDigit = true := by
        simpa [wellFormedTag, hd] using hwfe
      have hpd : pyIntDigit? c2 = some (c2.toNat - 48) := by
        rw [pyIntDigit?, if_pos hdig]
      constructor
      · intro hnone
        simp [wfLevel?, hd, hpd] at hnone
      · intro lv hlv
        simp [wfLevel?, hd, hpd] at hlv
        subst hlv
        simp [headingLoop, hd, hpd]
    · constructor
      · intro _
        simp only [headingLoop, hd, if_neg hc1]
      · intro lv hlv
        simp only [wfLevel?, hd, if_neg hc1] at hlv
        exact Option.noConfusion hlv
  · exact ⟨fun _ => by simp only [headingLoop, hd],
      fun lv hlv => by
        simp only [wfLevel?, hd] at hlv
        exact Option.noConfusion hlv⟩

/-- `wfLevels` on a cons. -/
theorem wfLevels_cons (e : Element) (t : List Element) :
    wfLevels (e :: t) = (match wfLevel? e with
      | some lv => lv :: wfLevels t
      | none => wfLevels t) := by
  rw [wfLevels, List.filterMap_cons]
  cases wfLevel? e <;> rfl

/-- On a heading list whose tags never make `int` raise, `headingLoop`
returns exactly the skip issues described by `specJumps` over the
well-formed levels. -/
theorem headingLoop_spec : ∀ (hs : List Element) (prev : Nat),
    hs.all wellFormedTag = true →
    ∃ l, headingLoop hs prev = .ok l
      ∧ l.map issueCore = (specJumps prev (wfLevels hs)).map (fun p => skipCore p.1 p.2) := by
  intro hs
  induction hs with
  | nil => intro prev _; exact ⟨[], rfl, rfl⟩
  | cons e t ih =>
    intro prev hwf
    rw [List.all_cons, Bool.and_eq_true] at hwf
    obtain ⟨hwfe, hwft⟩ := hwf
    obtain ⟨hskip, hstep⟩ := headingLoop_step e t prev hwfe
    cases hw : wfLevel? e with
    | none =>
      rw [hskip hw]
      simp only [wfLevels_cons, hw]
      exact ih prev hwft
    | some lv =>
      obtain ⟨l, hl, hmap⟩ := ih lv hwft
      rw [hstep lv hw, hl]
      refine ⟨_, rfl, ?_⟩
      simp only [wfLevels_cons, hw]
      rw [specJumps, List.map_append, List.map_append, hmap]
      congr 1
      by_cases hj : 0 < prev ∧ prev + 1 < lv
      · rw [if_pos hj, if_pos hj]; rfl
      · rw [if_neg hj, if_neg hj]; rfl

/-- C4: on heading sequences whose tags never raise, the
`heading-skipped-level` issues of `check_heading_hierarchy` are exactly one
error per jump `previous_level → L` (with `previous_level > 0` and
`L > previous_level + 1`, tracking `previous_level` from 0 through the
well-formed levels, updated on every well-formed heading), naming the jump
and suggesting `previous_level + 1`; in particular a sequence whose
well-formed levels never increase by more than 1 yields zero skip issues. -/
theorem c4_heading_skipped (hs : List Element) (hwf : hs.all wellFormedTag = true) :
    ∃ l, check_heading_hierarchy hs = .ok l
      ∧ (l.filter (fun i => i.rule_id == "heading-skipped-level")).map issueCore
        = (specJumps 0 (wfLevels hs)).map (fun p => skipCore p.1 p.2)
      ∧ (gentleFrom 0 (wfLevels hs) = true →
          l.filter (fun i => i.rule_id == "heading-skipped-level") = []) := by
  cases hs with
  | nil => exact ⟨[], rfl, rfl, fun _ => rfl⟩
  | cons first t =>
    obtain ⟨l, hl, hmap⟩ := headingLoop_spec (first :: t) 0 hwf
    have hall : ∀ i ∈ l, i.rule_id = "heading-skipped-level" := by
      intro i hi
      have hmem : issueCore i ∈ l.map issueCore := List.mem_map_of_mem issueCore hi
      rw [hmap] at hmem
      obtain ⟨p, hp, heq⟩ := List.mem_map.mp hmem
      have h' := congrArg Prod.fst heq
      simpa [skipCore, issueCore] using h'.symm
    have hfilter : l.filter (fun i => i.rule_id == "heading-skipped-level") = l := by
      rw [List.filter_eq_self]
      intro i hi
      rw [beq_iff_eq]
      exact hall i hi
    have hpre : (if first.tag ≠ "h1" then [noH1Issue] else []).filter
        (fun i => i.rule_id == "heading-skipped-level") = [] := by
      by_cases h1 : first.tag ≠ "h1"
      · rw [if_pos h1]; rfl
      · rw [if_neg h1]; rfl
    refine ⟨(if first.tag ≠ "h1" then [noH1Issue] else []) ++ l, ?_, ?_, ?_⟩
    · simp only [check_heading_hierarchy, hl]
    · rw [List.filter_append, hpre, hfilter, List.nil_append, hmap]
    · intro hg
      have hj := gentle_no_jumps (wfLevels (first :: t)) 0 hg
      rw [hj] at hmap
      simp only [List.map_nil] at hmap
      have hnil : l = [] := List.map_eq_nil_iff.mp hmap
      rw [List.filter_append, hpre, hfilter, List.nil_append, hnil]

/-- C4 witness: `[h1, div, h3]` — the skip issues are exactly the one for
the jump 1 → 3; and the hypotheses hold at this input. -/
theorem c4_heading_skipped_witness :
    ∃ l, check_heading_hierarchy
        [⟨"h1", [], ""⟩, ⟨"div", [], ""⟩, ⟨"h3", [], ""⟩] = .ok l
      ∧ (l.filter (fun i => i.rule_id == "heading-skipped-level")).map issueCore
        = (specJumps 0 (wfLevels [⟨"h1", [], ""⟩, ⟨"div", [], ""⟩, ⟨"h3", [], ""⟩])).map
            (fun p => skipCore p.1 p.2)
      ∧ (gentleFrom 0 (wfLevels [⟨"h1", [], ""⟩, ⟨"div", [], ""⟩, ⟨"h3", [], ""⟩]) = true →
          l.filter (fun i => i.rule_id == "heading-skipped-level") = []) :=
  c4_heading_skipped [⟨"h1", [], ""⟩, ⟨"div", [], ""⟩, ⟨"h3", [], ""⟩] (by decide)

/-- The image checker only ever emits its two rule ids. -/
theorem check_img_alt_text_rule (e : Element) (i : AccessibilityIssue)
    (h : check_img_alt_text e = some i) :
    i.rule_id = "img-alt-missing" ∨ i.rule_id = "img-alt-empty" := by
  simp only [check_img_alt_text] at h
  repeat
    first
    | (cases h <;> first | exact Or.inl rfl | exact Or.inr rfl)
    | split at h

/-- The form-label checker only ever emits its rule id. -/
theorem check_form_labels_rule (e : Element) (i : AccessibilityIssue)
    (h : check_form_labels e = some i) : i.rule_id = "form-no-label" := by
  simp only [check_form_labels] at h
  repeat
    first
    | (cases h <;> rfl)
    | split at h

/-- The link-text checker only ever emits its two rule ids. -/
theorem check_link_text_rule (e : Element) (i : AccessibilityIssue)
    (h : check_link_text e = some i) :
    i.rule_id = "link-no-text" ∨ i.rule_id = "link-generic-text" := by
  simp only [check_link_text] at h
  repeat
    first
    | (cases h <;> first | exact Or.inl rfl | exact Or.inr rfl)
    | split at h

/-- The language checker only ever emits its rule id. -/
theorem check_language_attribute_rule (e : Element) (i : AccessibilityIssue)
    (h : check_language_attribute e = some i) : i.rule_id = "html-no-lang" := by
  simp only [check_language_attribute] at h
  repeat
    first
    | (cases h <;> rfl)
    | split at h

/-- The ARIA-role checker only ever emits its rule id. -/
theorem check_aria_roles_rule (e : Element) (i : AccessibilityIssue)
    (h : check_aria_roles e = some i) : i.rule_id = "aria-invalid-role" := by
  simp only [check_aria_roles] at h
  repeat
    first
    | (cases h <;> rfl)
    | split at h

/-- The keyboard checker only ever emits its rule id. -/
theorem check_keyboard_accessibility_rule (e : Element) (i : AccessibilityIssue)
    (h : check_keyboard_accessibility e = some i) : i.rule_id = "keyboard-no-access" := by
  simp only [check_keyboard_accessibility] at h
  repeat
    first
    | (cases h <;> rfl)
    | split at h

/-- No per-element check of `check_html_accessibility` produces the
touch-target advisory. -/
theorem perElementIssues_rules (e : Element) (i : AccessibilityIssue)
    (h : i ∈ perElementIssues e) : i.rule_id ≠ "touch-target-size" := by
  unfold perElementIssues at h
  simp only [List.mem_append, Option.mem_toList, Option.mem_def] at h
  rcases h with ((((h | h) | h) | h) | h) | h
  · rcases check_img_alt_text_rule e i h with h' | h' <;> rw [h'] <;> decide
  · rw [check_form_labels_rule e i h]; decide
  · rcases check_link_text_rule e i h with h' | h' <;> rw [h'] <;> decide
  · rw [check_language_attribute_rule e i h]; decide
  · rw [check_aria_roles_rule e i h]; decide
  · rw [check_keyboard_accessibility_rule e i h]; decide

/-- Every issue of a successful `headingLoop` run is a skipped-level one. -/
theorem headingLoop_rules : ∀ (hs : List Element) (prev : Nat)
    (l : List AccessibilityIssue), headingLoop hs prev = .ok l →
    ∀ i ∈ l, i.rule_id = "heading-skipped-level" := by
  intro hs
  induction hs with
  | nil =>
    intro prev l h i hi
    injection h with h'
    subst h'
    simp at hi
  | cons e t ih =>
    intro prev l h i hi
    rcases hd : e.tag.data with _ | ⟨c1, _ | ⟨c2, _ | ⟨c3, tl3⟩⟩⟩ <;>
      simp only [headingLoop, hd] at h
    · exact ih prev l h i hi
    · exact ih prev l h i hi
    · by_cases hc1 : c1 = 'h'
      · rw [if_pos hc1] at h
        cases hp : pyIntDigit? c2 with
        | none =>
          simp only [hp] at h
          exact Except.noConfusion h
        | some lv =>
          simp only [hp] at h
          cases hl : headingLoop t lv with
          | error m =>
            simp only [hl] at h
            exact Except.noConfusion h
          | ok rest =>
            simp only [hl] at h
            injection h with h'
            subst h'
            rcases List.mem_append.mp hi with hpre | hrest
            · by_cases hj : 0 < prev ∧ prev + 1 < lv
              · rw [if_pos hj] at hpre
                rw [List.mem_singleton.mp hpre]
                rfl
              · rw [if_neg hj] at hpre
                simp at hpre
            · exact ih lv rest hl i hrest
      · rw [if_neg hc1] at h
        exact ih prev l h i hi
    · exact ih prev l h i hi

/-- Every issue of a successful heading-hierarchy check is the no-h1 warning
or a skipped-level error. -/
theorem check_heading_rules (hs : List Element) (l : List AccessibilityIssue)
    (h : check_heading_hierarchy hs = .ok l) (i : AccessibilityIssue) (hi : i ∈ l) :
    i.rule_id = "heading-no-h1" ∨ i.rule_id = "heading-skipped-level" := by
  cases hs with
  | nil =>
    injection h with h'
    subst h'
    simp at hi
  | cons first t =>
    simp only [check_heading_hierarchy] at h
    cases hl : headingLoop (first :: t) 0 with
    | error m => rw [hl] at h; exact absurd h (by simp)
    | ok skips =>
      rw [hl] at h
      injection h with h'
      subst h'
      rcases List.mem_append.mp hi with hpre | hskips
      · by_cases h1 : first.tag ≠ "h1"
        · rw [if_pos h1] at hpre
          rw [List.mem_singleton.mp hpre]
          exact Or.inl rfl
        · rw [if_neg h1] at hpre
          simp at hpre
      · exact Or.inr (headingLoop_rules (first :: t) 0 skips hl i hskips)

/-- No issue collected by `check_html_accessibility` is the touch-target
advisory. -/
theorem baseIssues_not_touch (els : List Element) (hIssues : List AccessibilityIssue)
    (hh : check_heading_hierarchy (extract_headings els) = .ok hIssues)
    (i : AccessibilityIssue)
    (hi : i ∈ (els.map perElementIssues).flatten ++ hIssues) :
    i.rule_id ≠ "touch-target-size" := by
  rcases List.mem_append.mp hi with hi | hi
  · obtain ⟨sub, hsub, hisub⟩ := List.mem_flatten.mp hi
    obtain ⟨e, he, rfl⟩ := List.mem_map.mp hsub
    exact perElementIssues_rules e i hisub
  · rcases check_heading_rules (extract_headings els) hIssues hh i hi with h' | h' <;>
      rw [h'] <;> decide

/-- C2 (amended): `check_html_accessibility` never emits the
`touch-target-size` advisory — the touch-target checker is not among the
checks it runs — although `check_touch_target_size` itself, on every element
with tag `button`/`a` or role `button`/`link`, does emit the `info`
advisory. -/
theorem c2_touch_target_not_wired (els : List Element) (iw : Bool) :
    (∀ r, check_html_accessibility els iw = .ok r →
      (r.errors ++ r.warnings ++ r.info).filter (fun d => d.rule_id == "touch-target-size") = [])
    ∧ ∀ e, (e.tag = "button" ∨ e.tag = "a"
        ∨ attrGet e "role" = some "button" ∨ attrGet e "role" = some "link") →
      (check_touch_target_size e).map (fun i => (i.rule_id, i.severity))
        = some ("touch-target-size", Severity.info) := by
  constructor
  · intro r hr
    unfold check_html_accessibility at hr
    cases hh : check_heading_hierarchy (extract_headings els) with
    | error m => rw [hh] at hr; exact absurd hr (by simp)
    | ok hIssues =>
      rw [hh] at hr
      injection hr with hr'
      subst hr'
      rw [List.filter_eq_nil_iff]
      intro d hd
      have hbase : ∀ i, i ∈ (if iw then (els.map perElementIssues).flatten ++ hIssues
          else ((els.map perElementIssues).flatten ++ hIssues).filter
            (fun i => i.severity = Severity.error)) →
          i.rule_id ≠ "touch-target-size" := by
        intro i hi
        refine baseIssues_not_touch els hIssues hh i ?_
        cases iw with
        | true =>
          rw [if_pos rfl] at hi
          exact hi
        | false =>
          rw [if_neg (by simp)] at hi
          exact List.mem_of_mem_filter hi
      have hd' : ∃ i, (i.rule_id ≠ "touch-target-size") ∧ d = toIssueDict i := by
        rcases (List.mem_append.mp hd) with hmem | hmem
        · rcases List.mem_append.mp hmem with hmem' | hmem'
          · obtain ⟨i, hi, rfl⟩ := List.mem_map.mp hmem'
            exact ⟨i, hbase i (List.mem_of_mem_filter hi), rfl⟩
          · obtain ⟨i, hi, rfl⟩ := List.mem_map.mp hmem'
            exact ⟨i, hbase i (List.mem_of_mem_filter hi), rfl⟩
        · obtain ⟨i, hi, rfl⟩ := List.mem_map.mp hmem
          exact ⟨i, hbase i (List.mem_of_mem_filter hi), rfl⟩
      obtain ⟨i, hne, rfl⟩ := hd'
      simpa [toIssueDict] using hne
  · intro e he
    simp [check_touch_target_size, he, touchTargetIssue]

/-- C2 counterexample: a bare `button` element.  The claim says the output
of the full pass contains one touch-target advisory for it; the output
contains no issues at all. -/
theorem c2_counterexample :
    (Element.mk "button" [] "").tag = "button"
    ∧ check_html_accessibility [Element.mk "button" [] ""] true
      = .ok ⟨0, [], [], [], 0, 0, 0⟩ :=
  ⟨rfl, rfl⟩

/-- C2 witness: the empty document yields no touch advisories, and the
checker itself fires on a button. -/
theorem c2_touch_target_not_wired_witness :
    (⟨0, [], [], [], 0, 0, 0⟩ : CheckResult).errors
        ++ (⟨0, [], [], [], 0, 0, 0⟩ : CheckResult).warnings
        ++ (⟨0, [], [], [], 0, 0, 0⟩ : CheckResult).info = []
    ∧ ((⟨0, [], [], [], 0, 0, 0⟩ : CheckResult).errors
        ++ (⟨0, [], [], [], 0, 0, 0⟩ : CheckResult).warnings
        ++ (⟨0, [], [], [], 0, 0, 0⟩ : CheckResult).info).filter
          (fun d => d.rule_id == "touch-target-size") = []
    ∧ (check_touch_target_size ⟨"a", [], ""⟩).map (fun i => (i.rule_id, i.severity))
      = some ("touch-target-size", Severity.info) :=
  ⟨rfl,
   (c2_touch_target_not_wired [] true).1 ⟨0, [], [], [], 0, 0, 0⟩ rfl,
   (c2_touch_target_not_wired [] true).2 ⟨"a", [], ""⟩ (Or.inr (Or.inl rfl))⟩

/-- Extracted headings all carry a well-formed `h1`..`h6` tag. -/
theorem extract_headings_wf (els : List Element) :
    (extract_headings els).all wellFormedTag = true := by
  rw [List.all_eq_true]
  intro e he
  have hc := (List.mem_filter.mp he).2
  simp at hc
  rcases hc with h' | h' | h' | h' | h' | h' <;>
    · simp only [wellFormedTag, h']
      decide

/-- The heading check never raises on the headings extracted by the server
(their tags are all `h1`..`h6`). -/
theorem heading_ok_extract (els : List Element) :
    ∃ l, check_heading_hierarchy (extract_headings els) = .ok l := by
  cases hx : extract_headings els with
  | nil => exact ⟨[], rfl⟩
  | cons first t =>
    have hwf := extract_headings_wf els
    rw [hx] at hwf
    obtain ⟨l, hl, -⟩ := headingLoop_spec (first :: t) 0 hwf
    refine ⟨(if first.tag ≠ "h1" then [noH1Issue] else []) ++ l, ?_⟩
    simp only [check_heading_hierarchy, hl]

/-- C1 (amended): for every catalog, element sequence and valid target
level, `validate_wcag_compliance_level` succeeds and returns
`compliance_percentage` equal to
`(required_count - violated_count) / required_count * 100` — rounded to one
decimal place, Python `round(x, 1)` — with 100 when `required_count` is 0,
where `required_count` is the size of the cumulative required-criteria list
and `violated_count` the number of distinct criterion numbers among the
violations; and `compliance_status` is `PASS` precisely when the violations
list is empty. -/
theorem c1_compliance_formula (cat : List WCAGCriterion) (els : List Element)
    (tl : String) (isug : Bool)
    (hvalid : pyUpper tl = "A" ∨ pyUpper tl = "AA" ∨ pyUpper tl = "AAA") :
    ∃ r, validate_wcag_compliance_level cat els tl isug = .ok r
      ∧ r.total_required_criteria = (requiredCriteria cat (pyUpper tl)).length
      ∧ r.violated_criteria = ((r.violations.map (fun v => v.criterion)).dedup).length
      ∧ r.compliance_percentage = pyRound1 (if r.total_required_criteria = 0 then 100
          else (((r.total_required_criteria : ℚ) - (r.violated_criteria : ℚ))
            / (r.total_required_criteria : ℚ)) * 100)
      ∧ (r.compliance_status = "PASS" ↔ r.violations = []) := by
  obtain ⟨hIssues, hok⟩ := heading_ok_extract els
  refine ⟨complianceReportCore cat els (pyUpper tl) hIssues isug, ?_, rfl, rfl, ?_, ?_⟩
  · rw [validate_wcag_compliance_level, if_neg (not_not_intro hvalid), hok]
  · simp only [complianceReportCore]
    rcases Nat.eq_zero_or_pos (requiredCriteria cat (pyUpper tl)).length with h0 | hpos
    · rw [h0]
      norm_num
    · rw [if_pos hpos, if_neg (by omega)]
  · simp only [complianceReportCore]
    cases hv : (buildViolations cat (requiredCriteria cat (pyUpper tl))
        (buildCriterionIssues els hIssues) isug).isEmpty <;>
      simp_all [List.isEmpty_iff]

/-- C1 witness: the empty catalog and document at target level `A` (the
required count is 0, the percentage is 100, the status is `PASS`). -/
theorem c1_compliance_formula_witness :
    (pyUpper "A" = "A" ∨ pyUpper "A" = "AA" ∨ pyUpper "A" = "AAA")
    ∧ ∃ r, validate_wcag_compliance_level [] [] "A" true = .ok r
      ∧ r.total_required_criteria = (requiredCriteria [] (pyUpper "A")).length
      ∧ r.violated_criteria = ((r.violations.map (fun v => v.criterion)).dedup).length
      ∧ r.compliance_percentage = pyRound1 (if r.total_required_criteria = 0 then 100
          else (((r.total_required_criteria : ℚ) - (r.violated_criteria : ℚ))
            / (r.total_required_criteria : ℚ)) * 100)
      ∧ (r.compliance_status = "PASS" ↔ r.violations = []) :=
  ⟨Or.inl (by decide), c1_compliance_formula [] [] "A" true (Or.inl (by decide))⟩

/-- A three-criterion level-A catalog used to exhibit the rounding of the
compliance percentage. -/
def cat3A : List WCAGCriterion :=
  [⟨"1.1.1", "non-text-content", "Non-text Content", "A", "2.0", "d", "Perceivable", "g", none⟩,
   ⟨"2.1.1", "keyboard", "Keyboard", "A", "2.0", "d", "Operable", "g", none⟩,
   ⟨"3.1.1", "language-of-page", "Language of Page", "A", "2.0", "d", "Understandable", "g", none⟩]

/-- A document consisting of one image with no `alt` attribute. -/
def imgOnly : List Element :=
  [⟨"img", [], ""⟩]

/-- C1 counterexample: against `cat3A`, the document `imgOnly` violates one
of three required criteria.  The claim's formula gives
`(3 - 1) / 3 * 100 = 200 / 3`, but the function returns that value rounded
to one decimal place, `66.7`, which differs. -/
theorem c1_counterexample :
    (validate_wcag_compliance_level cat3A imgOnly "A" true).toOption.map
        (fun r => (r.total_required_criteria, r.violated_criteria)) = some (3, 1)
    ∧ (validate_wcag_compliance_level cat3A imgOnly "A" true).toOption.map
        (fun r => r.compliance_percentage) = some ((667 : ℚ) / 10)
    ∧ ((667 : ℚ) / 10) ≠ (((3 : ℚ) - 1) / 3) * 100 := by
  refine ⟨rfl, ?_, by norm_num⟩
  rw [show (validate_wcag_compliance_level cat3A imgOnly "A" true).toOption
      = some (complianceReportCore cat3A imgOnly "A" [] true) from rfl]
  rw [show Option.map (fun r : ComplianceReport => r.compliance_percentage)
      (some (complianceReportCore cat3A imgOnly "A" [] true))
    = some ((complianceReportCore cat3A imgOnly "A" [] true).compliance_percentage) from rfl]
  simp only [Option.some.injEq]
  simp only [complianceReportCore]
  rw [show (requiredCriteria cat3A "A").length = 3 from rfl]
  rw [show (((buildViolations cat3A (requiredCriteria cat3A "A")
    (buildCriterionIssues imgOnly []) true).map (fun v => v.criterion)).dedup).length
      = 1 from rfl]
  norm_num [pyRound1, roundHalfEven]
